import Mathlib

/-
  Shallow embedding of the hyprws repository (src/main.rs, src/monitor.rs).

  Conventions used throughout:
  * Rust `i32` values are modelled as `Int`; the Rust `%` operator on `i32`
    (truncated remainder, sign of the dividend) is modelled as `Int.tmod`.
  * Rust `usize` counters are modelled as `Nat`.
  * Rust `u32` bit patterns (file permission modes) are modelled as `Nat`,
    with bitwise NOT on `u32` made explicit as xor with `2 ^ 32 - 1`.
  * `f32` fields carry no arithmetic in the program; they are modelled by
    their bit pattern (`F32`), and the serde_json text layer (which
    round-trips `f32` exactly) is modelled at the JSON-tree level.
  * External effects (`hyprctl dispatch ...` invocations, diagnostic
    logging, process spawns, callback invocations) are reified as values in
    effect lists; query commands are modelled as explicit inputs, either as
    the raw textual response (parsed by the same rule the code uses,
    `parse` + `unwrap_or`) or as the already-parsed value.
-/

namespace HyprWS

/-- Maximum number of workspaces to create (10 per monitor); `MAX_WORKSPACES` in main.rs. -/
def MAX_WORKSPACES : Nat := 100

/-- Maximum number of monitors to support; `MAX_MONITORS` in main.rs. -/
def MAX_MONITORS : Nat := 10

/-- The local constant `workspaces_per_monitor` in `assign_workspaces_to_monitors`. -/
def WORKSPACES_PER_MONITOR : Nat := 10

/-- One parsed line of the workspace assignment table (struct `WorkspaceMonitorMap`). -/
structure WorkspaceMonitorMap where
  workspace : Int
  monitor : String
deriving DecidableEq

/-- Inner loop of `assign_workspaces_to_monitors`: emit up to `k` consecutive
workspace numbers for `monitor`, starting at counter `ws`, breaking once the
counter exceeds `MAX_WORKSPACES`; returns the emitted lines and the final
counter. Mirrors the `for _ in 0..workspaces_per_monitor` loop (file writes
are modelled by returning the list of written pairs). -/
def emitFor (monitor : String) : Nat → Nat → List (Nat × String) × Nat
  | ws, 0 => ([], ws)
  | ws, k + 1 =>
    if ws > MAX_WORKSPACES then ([], ws)
    else
      let r := emitFor monitor (ws + 1) k
      ((ws, monitor) :: r.1, r.2)

/-- Outer loop of `assign_workspaces_to_monitors` over the (already truncated)
monitor list, threading the workspace counter. -/
def assignLoop : Nat → List String → List (Nat × String)
  | _, [] => []
  | ws, m :: rest =>
    let r := emitFor m ws WORKSPACES_PER_MONITOR
    r.1 ++ assignLoop r.2 rest

/-- The placement scheme of `assign_workspaces_to_monitors` (main.rs): the
workspace counter starts at 1, only the first
`min(monitors.len(), MAX_WORKSPACES / workspaces_per_monitor)` monitors are
used, and each used monitor receives `workspaces_per_monitor` consecutive
numbers. The written file is modelled as the list of
(workspace number, monitor name) lines. -/
def assign_workspaces_to_monitors (monitors : List String) : List (Nat × String) :=
  let max_monitors_to_use := min monitors.length (MAX_WORKSPACES / WORKSPACES_PER_MONITOR)
  assignLoop 1 (monitors.take max_monitors_to_use)

/-- Dispatch commands issued through `hyprctl dispatch ...`, modelled
structurally instead of as formatted command strings. -/
inductive Cmd where
  | moveToWorkspaceSilent (ws : Int)
  | workspace (ws : Int)
  | focusMonitor (m : Int)
deriving DecidableEq

/-- Externally visible effects of the placement operations: diagnostic log
lines (`eprintln!`) and dispatched commands. -/
inductive Effect where
  | log (msg : String)
  | dispatch (cmd : Cmd)
deriving DecidableEq

/-- The `targets` vector computed identically in `move_silent_workspace` and
`switch_workspace`: workspace numbers of the table entries congruent to the
requested workspace modulo 10 (Rust `%` on `i32` = `Int.tmod`). -/
def placementTargets (workspace : Int) (maps : List WorkspaceMonitorMap) : List Int :=
  (maps.filter (fun m => m.workspace.tmod 10 == workspace.tmod 10)).map (fun m => m.workspace)

/-- The `for ws in &targets` selection loop of `move_silent_workspace`,
threading the mutable pair (`min_windows`, `least_populated`) and using the
strict comparison `count < min_windows`. -/
def pickMin (counts : Int → Int) : Int → Int → List Int → Int
  | _, lp, [] => lp
  | mw, lp, t :: ts =>
    if counts t < mw then pickMin counts (counts t) t ts else pickMin counts mw lp ts

/-- Embedding of `move_silent_workspace` (main.rs). The per-workspace live
window count query (`hyprctl clients -j | jq ...` then `parse().unwrap_or(0)`)
is modelled by the input function `counts`; `i32::MAX` is `2147483647`;
`Vec::sort` is modelled by a stable ascending sort. Returns the effect list. -/
def move_silent_workspace (counts : Int → Int) (workspace : Int)
    (maps : List WorkspaceMonitorMap) : List Effect :=
  if workspace ≤ 0 then [.log "Invalid workspace number"]
  else
    let targets := placementTargets workspace maps
    if targets.isEmpty then [.log "No matching workspaces found"]
    else
      let sorted_targets := List.insertionSort (· ≤ ·) targets
      let least_populated := pickMin counts 2147483647 (sorted_targets.headD 0) targets
      [.dispatch (.moveToWorkspaceSilent least_populated)]

/-- Embedding of `move_workspace` (main.rs): runs `move_silent_workspace`,
then unconditionally dispatches a visible workspace switch for every table
entry congruent to the requested workspace, in table order. -/
def move_workspace (counts : Int → Int) (workspace : Int)
    (maps : List WorkspaceMonitorMap) : List Effect :=
  move_silent_workspace counts workspace maps ++
    (placementTargets workspace maps).map (fun ws => .dispatch (.workspace ws))

/-- Two's-complement wrap of an integer into the `i32` range
`[-2^31, 2^31)`, the release-profile semantics of `i32` addition overflow. -/
def wrap32 (n : Int) : Int :=
  (n + 2 ^ 31).emod (2 ^ 32) - 2 ^ 31

/-- Embedding of `switch_workspace` (main.rs). The live query results
(active workspace id, monitor count, active monitor id) are inputs; the
result is `Except.error` exactly where the Rust program panics. The `i32`
expression `(get_current_monitor() + 1) % monitor_count` is modelled at
`i32` fidelity: the increment wraps (release semantics; a debug build would
already panic at the add when `current_monitor = i32::MAX`, the one case
where `wrap32` differs from `+ 1`), and the remainder panics on a zero
divisor and on `i32::MIN % -1` (both checks are unconditional in Rust,
present in every build profile). -/
def switch_workspace (current_workspace monitor_count current_monitor : Int)
    (workspace : Int) (maps : List WorkspaceMonitorMap) : Except String (List Effect) :=
  if workspace ≤ 0 then .ok [.log "Invalid workspace number"]
  else
    let targets := placementTargets workspace maps
    if targets.isEmpty then .ok [.log "No matching workspaces found"]
    else if targets.contains current_workspace then
      if monitor_count = 0 then
        .error "attempt to calculate the remainder with a divisor of zero"
      else if wrap32 (current_monitor + 1) = -2147483648 ∧ monitor_count = -1 then
        .error "attempt to calculate the remainder with overflow"
      else
        .ok [.dispatch (.focusMonitor ((wrap32 (current_monitor + 1)).tmod monitor_count))]
    else
      .ok (targets.map (fun ws => .dispatch (.workspace ws)))

/-- Digit-string parser used to model Rust integer `parse()`: at least one
ASCII digit, all characters digits. -/
def parseDigits (s : List Char) : Option Nat :=
  if s.isEmpty then none
  else
    s.foldl
      (fun acc c =>
        match acc with
        | none => none
        | some n => if c.isDigit then some (n * 10 + (c.toNat - 48)) else none)
      (some 0)

/-- Model of Rust `str::parse::<i32>()`: optional sign, digits, in-range for
`i32` (otherwise `Err`). -/
def parse_i32 (s : List Char) : Option Int :=
  match s with
  | '-' :: rest =>
    (parseDigits rest).bind (fun n =>
      if (n : Int) ≤ 2147483648 then some (-(n : Int)) else none)
  | '+' :: rest =>
    (parseDigits rest).bind (fun n =>
      if (n : Int) ≤ 2147483647 then some (n : Int) else none)
  | _ =>
    (parseDigits s).bind (fun n =>
      if (n : Int) ≤ 2147483647 then some (n : Int) else none)

/-- Embedding of `get_current_workspace` (main.rs): the textual response of
the active-workspace query, parsed with `parse().unwrap_or(0)`. -/
def get_current_workspace (resp : String) : Int :=
  (parse_i32 resp.toList).getD 0

/-- Embedding of `get_monitor_count` (main.rs): the textual response of the
monitor-count query, parsed with `parse().unwrap_or(1)`. -/
def get_monitor_count (resp : String) : Int :=
  (parse_i32 resp.toList).getD 1

/-- Embedding of `get_current_monitor` (main.rs): the textual response of the
active-monitor query, parsed with `parse().unwrap_or(0)`. -/
def get_current_monitor (resp : String) : Int :=
  (parse_i32 resp.toList).getD 0

/-- Bit pattern of an `f32` value. The program performs no floating-point
arithmetic on refresh rates; serde_json round-trips `f32` values exactly, so
the serialized number is modelled as the value itself. -/
structure F32 where
  bits : Nat
deriving DecidableEq

/-- Struct `HyprlandMonitor` (main.rs): the shape of one entry of the
`hyprctl monitors -j` response. -/
structure HyprlandMonitor where
  name : String
  id : Nat
  width : Nat
  height : Nat
  refresh_rate : F32
deriving DecidableEq

/-- Struct `Monitor` (main.rs); field `refresh_rate` is serialized under the
name "refresh-rate". -/
structure Monitor where
  name : String
  id : Nat
  height : Nat
  width : Nat
  refresh_rate : F32
deriving DecidableEq

/-- HashMap insert (replace the value under an existing key, else add the
entry); `HashMap<String, Monitor>` is modelled as an association list. -/
def insertEntry (m : List (String × Monitor)) (k : String) (v : Monitor) :
    List (String × Monitor) :=
  match m with
  | [] => [(k, v)]
  | (k1, v1) :: rest => if k1 = k then (k, v) :: rest else (k1, v1) :: insertEntry rest k v

/-- Struct `MonitorConfig` (main.rs): the Monitor Registry. -/
structure MonitorConfig where
  monitors : List (String × Monitor)
deriving DecidableEq

/-- The `hyprctl monitors -j` response as consumed by
`update_from_hyprland`: an empty stdout, a non-empty but unparsable one, or a
successfully parsed monitor array. -/
inductive HyprResp where
  | empty
  | unparsable
  | parsed (ms : List HyprlandMonitor)

/-- Embedding of `MonitorConfig::update_from_hyprland` (main.rs): empty
output fails before touching the map; a parse error propagates with `?`
before touching the map; on success the monitor list is truncated to
`MAX_MONITORS`, the map is cleared and repopulated keyed by `id.to_string()`.
Returns the new registry state together with the `io::Result`. -/
def update_from_hyprland (cfg : MonitorConfig) (resp : HyprResp) :
    MonitorConfig × Except String Unit :=
  match resp with
  | .empty => (cfg, .error "Failed to get monitor information from hyprctl")
  | .unparsable => (cfg, .error "Error parsing monitor JSON")
  | .parsed hyprland_monitors =>
    let hyprland_monitors := hyprland_monitors.take MAX_MONITORS
    let cleared : List (String × Monitor) := []
    (⟨hyprland_monitors.foldl
        (fun acc hm =>
          insertEntry acc (toString hm.id)
            ⟨hm.name, hm.id, hm.height, hm.width, hm.refresh_rate⟩)
        cleared⟩,
      .ok ())

/-- JSON documents, at tree level. Numbers split into the `u32`-backed
integers and the `f32`-backed refresh rates the program serializes. -/
inductive Json where
  | str (s : String)
  | num (n : Nat)
  | fnum (v : F32)
  | obj (fields : List (String × Json))
  | arr (elems : List Json)

/-- Derived serde `Serialize` for `Monitor`: fields in declaration order,
`refresh_rate` renamed to "refresh-rate". -/
def Monitor.toJson (m : Monitor) : Json :=
  .obj
    [("name", .str m.name), ("id", .num m.id), ("height", .num m.height),
      ("width", .num m.width), ("refresh-rate", .fnum m.refresh_rate)]

/-- Embedding of `MonitorConfig::save` (main.rs): the JSON document written
to the cache file (directory creation and the serde_json text layer are
modelled as producing this tree). -/
def MonitorConfig.save (cfg : MonitorConfig) : Json :=
  .obj [("monitors", .obj (cfg.monitors.map (fun kv => (kv.1, Monitor.toJson kv.2))))]

/-- Field lookup in a JSON object, as derived serde `Deserialize` resolves a
struct field by name. -/
def jlookup (fields : List (String × Json)) (key : String) : Except String Json :=
  match fields with
  | [] => .error ("missing field " ++ key)
  | (k, v) :: rest => if k = key then .ok v else jlookup rest key

/-- Expect a JSON string. -/
def asStr : Json → Except String String
  | .str s => .ok s
  | _ => .error "expected string"

/-- Expect a JSON integer. -/
def asNum : Json → Except String Nat
  | .num n => .ok n
  | _ => .error "expected number"

/-- Expect a JSON `f32` number. -/
def asF32 : Json → Except String F32
  | .fnum v => .ok v
  | _ => .error "expected number"

/-- Derived serde `Deserialize` for `Monitor`. -/
def parseMonitor (j : Json) : Except String Monitor :=
  match j with
  | .obj fields => do
    let name ← jlookup fields "name" >>= asStr
    let id ← jlookup fields "id" >>= asNum
    let height ← jlookup fields "height" >>= asNum
    let width ← jlookup fields "width" >>= asNum
    let rr ← jlookup fields "refresh-rate" >>= asF32
    .ok ⟨name, id, height, width, rr⟩
  | _ => .error "expected object"

/-- serde `Deserialize` for `HashMap<String, Monitor>`: parse each object
entry in order and insert it into the map. -/
def parseMonitorsMap (fields : List (String × Json)) :
    Except String (List (String × Monitor)) :=
  fields.foldlM
    (fun acc kv => do
      let m ← parseMonitor kv.2
      pure (insertEntry acc kv.1 m))
    []

/-- Embedding of `MonitorConfig::load` (main.rs): deserialize the cache
document back into a registry. -/
def MonitorConfig.load (j : Json) : Except String MonitorConfig :=
  match j with
  | .obj fields => do
    let mj ← jlookup fields "monitors"
    match mj with
    | .obj entries => do
      let m ← parseMonitorsMap entries
      .ok ⟨m⟩
    | _ => .error "expected object"
  | _ => .error "expected object"

/-- Delivery mode of the event listener (monitor.rs `listen`): an in-process
callback, or external scripts (attached script for `monitoradded`, optional
detached script for `monitorremoved`). Exactly one mode per run. -/
inductive ListenMode where
  | callback
  | script (script_attached : String) (script_detached : Option String)

/-- Externally visible effects of one iteration of the listener loop:
callback invocations, process spawns, and logged errors. -/
inductive ListenEffect where
  | callbackCall (monitorId : String) (isAdded : Bool)
  | spawn (script : String) (arg : String)
  | logError (msg : String)
deriving DecidableEq

/-- Bitwise NOT on a `u32` bit pattern (`!mode` in monitor.rs), made explicit
as xor with the all-ones word. -/
def u32not (m : Nat) : Nat :=
  (m % 2 ^ 32) ^^^ (2 ^ 32 - 1)

/-- The file system as seen by the listener: a script path either does not
exist or has a permission mode word (`metadata().permissions().mode()`). -/
def FileSys : Type := String → Option Nat

/-- The script-execution branch of the listener loop: open the script (log
and skip when absent), test `!mode & 0o100 != 0` (log and skip when the
owner-execute bit is clear), else spawn the script with the monitor identity
as sole argument. -/
def spawnChecked (fs : FileSys) (script : String) (arg : String) : List ListenEffect :=
  match fs script with
  | none => [.logError ("Error: '" ++ script ++ "' file not found.")]
  | some mode =>
    if u32not mode &&& 0o100 != 0 then
      [.logError ("Error: '" ++ script ++ "' file is not executable.")]
    else
      [.spawn script arg]

/-- String split on the two-character separator ">>", with Rust
`str::split(">>")` semantics (non-overlapping, left to right; an input
without the separator yields a single field). -/
def splitGG : List Char → List (List Char)
  | [] => [[]]
  | '>' :: '>' :: rest => [] :: splitGG rest
  | c :: rest =>
    match splitGG rest with
    | [] => [[c]]
    | g :: gs => (c :: g) :: gs

/-- Whitespace trim on both ends (`str::trim`), at ASCII granularity. -/
def trimChars (s : List Char) : List Char :=
  ((s.dropWhile Char.isWhitespace).reverse.dropWhile Char.isWhitespace).reverse

/-- Body of one listener-loop iteration after the field-count check
(monitor.rs `listen`): handle `monitoradded` and `monitorremoved` on the
first two fields according to the delivery mode; every other event name is
ignored. -/
def handleEvent (fs : FileSys) (mode : ListenMode) (p0 p1 : List Char) :
    List ListenEffect :=
  if p0 = "monitoradded".toList then
    match mode with
    | .callback => [.callbackCall (String.mk p1) true]
    | .script script_attached _ => spawnChecked fs script_attached (String.mk p1)
  else if p0 = "monitorremoved".toList then
    match mode with
    | .callback => [.callbackCall (String.mk p1) false]
    | .script _ (some script_detached) => spawnChecked fs script_detached (String.mk p1)
    | .script _ none => []
  else []

/-- One iteration of the listener loop of `listen` (monitor.rs): trim the
line, split on ">>", skip lines with fewer than two fields, and otherwise
handle the event named by the first field with the second as payload.
Returns the effects of this iteration. -/
def processLine (fs : FileSys) (mode : ListenMode) (line : String) : List ListenEffect :=
  match splitGG (trimChars line.toList) with
  | p0 :: p1 :: _ => handleEvent fs mode p0 p1
  | _ => []

/-- The listener loop over a finite prefix of the event stream: the only
state between iterations is the remaining stream; effects accumulate in
order. -/
def listenRun (fs : FileSys) (mode : ListenMode) (lines : List String) : List ListenEffect :=
  lines.flatMap (processLine fs mode)

/-! ### Lemmas about the assignment engine -/

theorem emitFor_eq (m : String) (k : Nat) : ∀ ws : Nat, ws + k ≤ MAX_WORKSPACES + 1 →
    emitFor m ws k = ((List.range' ws k).map (fun w => (w, m)), ws + k) := by
  induction k with
  | zero => intro ws _; simp [emitFor]
  | succ k ih =>
    intro ws h
    have hng : ¬ ws > MAX_WORKSPACES := by omega
    rw [emitFor, if_neg hng, ih (ws + 1) (by omega)]
    rw [List.range'_succ]
    simp [Prod.ext_iff]
    omega

theorem assignLoop_eq (ms : List String) : ∀ ws : Nat,
    ws + WORKSPACES_PER_MONITOR * ms.length ≤ MAX_WORKSPACES + 1 →
    assignLoop ws ms =
      (List.range ms.length).flatMap
        (fun i =>
          (List.range' (ws + WORKSPACES_PER_MONITOR * i) WORKSPACES_PER_MONITOR).map
            (fun w => (w, ms.getD i ""))) := by
  induction ms with
  | nil => intro ws _; simp [assignLoop]
  | cons m rest ih =>
    intro ws h
    rw [assignLoop, emitFor_eq m WORKSPACES_PER_MONITOR ws
      (by simp [WORKSPACES_PER_MONITOR] at h ⊢; omega)]
    rw [ih (ws + WORKSPACES_PER_MONITOR)
      (by simp [WORKSPACES_PER_MONITOR, Nat.mul_succ] at h ⊢; omega)]
    rw [List.length_cons, List.range_succ_eq_map, List.flatMap_cons, List.flatMap_map]
    congr 1
    apply List.flatMap_congr
    intro i _
    simp only [Function.comp, List.getD_cons_succ, Nat.succ_eq_add_one]
    have harith : ws + WORKSPACES_PER_MONITOR + WORKSPACES_PER_MONITOR * i =
        ws + WORKSPACES_PER_MONITOR * (i + 1) := by
      simp only [WORKSPACES_PER_MONITOR]; omega
    rw [harith]

theorem flatMap_range'_blocks (b : Nat) : ∀ n : Nat,
    (List.range n).flatMap (fun i => List.range' (b + WORKSPACES_PER_MONITOR * i)
        WORKSPACES_PER_MONITOR) =
      List.range' b (WORKSPACES_PER_MONITOR * n) := by
  intro n
  induction n with
  | zero => simp
  | succ n ih =>
    rw [List.range_succ, List.flatMap_append, ih]
    simp only [List.flatMap_cons, List.flatMap_nil, List.append_nil]
    have harith : WORKSPACES_PER_MONITOR * (n + 1) =
        WORKSPACES_PER_MONITOR + WORKSPACES_PER_MONITOR * n := by
      rw [Nat.mul_succ]; omega
    have happ := List.range'_append b (WORKSPACES_PER_MONITOR * n) WORKSPACES_PER_MONITOR 1
    simp only [one_mul, Nat.mul_one] at happ
    rw [harith, ← happ]

/-- C1: for every monitor list of length 1..MAX_MONITORS, the placement
scheme assigns exactly `min(m, MAX_WORKSPACES/10) * 10` workspace numbers,
contiguous starting at 1, each listed monitor receiving exactly 10
consecutive numbers in list order (and no monitor beyond the first
`MAX_WORKSPACES/10` receives any, vacuously here since `m ≤ 10`). -/
theorem assign_scheme_spec (ms : List String) (h1 : 1 ≤ ms.length)
    (h2 : ms.length ≤ MAX_MONITORS) :
    assign_workspaces_to_monitors ms =
      (List.range ms.length).flatMap
        (fun i =>
          (List.range' (WORKSPACES_PER_MONITOR * i + 1) WORKSPACES_PER_MONITOR).map
            (fun w => (w, ms.getD i ""))) ∧
    (assign_workspaces_to_monitors ms).map Prod.fst =
      List.range' 1
        (min ms.length (MAX_WORKSPACES / WORKSPACES_PER_MONITOR) * WORKSPACES_PER_MONITOR) := by
  have hmin : min ms.length (MAX_WORKSPACES / WORKSPACES_PER_MONITOR) = ms.length := by
    simp [MAX_WORKSPACES, WORKSPACES_PER_MONITOR, MAX_MONITORS] at h2 ⊢; omega
  have htake : ms.take (min ms.length (MAX_WORKSPACES / WORKSPACES_PER_MONITOR)) = ms := by
    rw [hmin]; exact List.take_of_length_le (le_refl _)
  have hbody : assign_workspaces_to_monitors ms =
      (List.range ms.length).flatMap
        (fun i =>
          (List.range' (WORKSPACES_PER_MONITOR * i + 1) WORKSPACES_PER_MONITOR).map
            (fun w => (w, ms.getD i ""))) := by
    simp only [assign_workspaces_to_monitors]
    rw [htake, assignLoop_eq ms 1
      (by simp [MAX_WORKSPACES, WORKSPACES_PER_MONITOR, MAX_MONITORS] at h2 ⊢; omega)]
    apply List.flatMap_congr
    intro i _
    have harith : 1 + WORKSPACES_PER_MONITOR * i = WORKSPACES_PER_MONITOR * i + 1 :=
      Nat.add_comm _ _
    rw [harith]
  refine ⟨hbody, ?_⟩
  rw [hbody, List.map_flatMap, hmin]
  have hinner : ∀ i : Nat,
      ((List.range' (WORKSPACES_PER_MONITOR * i + 1) WORKSPACES_PER_MONITOR).map
          (fun w => (w, ms.getD i ""))).map Prod.fst =
        List.range' (1 + WORKSPACES_PER_MONITOR * i) WORKSPACES_PER_MONITOR := by
    intro i
    rw [List.map_map]
    have harith : WORKSPACES_PER_MONITOR * i + 1 = 1 + WORKSPACES_PER_MONITOR * i :=
      Nat.add_comm _ _
    rw [harith]
    exact List.map_id'' (fun x => rfl) _
  simp only [hinner]
  rw [flatMap_range'_blocks 1 ms.length]
  rw [Nat.mul_comm]

/-- Witness for C1 at a concrete two-monitor registry view. -/
theorem assign_scheme_spec_witness :
    assign_workspaces_to_monitors ["DP-1", "HDMI-1"] =
      (List.range (["DP-1", "HDMI-1"] : List String).length).flatMap
        (fun i =>
          (List.range' (WORKSPACES_PER_MONITOR * i + 1) WORKSPACES_PER_MONITOR).map
            (fun w => (w, (["DP-1", "HDMI-1"] : List String).getD i ""))) ∧
    (assign_workspaces_to_monitors ["DP-1", "HDMI-1"]).map Prod.fst =
      List.range' 1
        (min (["DP-1", "HDMI-1"] : List String).length
          (MAX_WORKSPACES / WORKSPACES_PER_MONITOR) * WORKSPACES_PER_MONITOR) :=
  assign_scheme_spec ["DP-1", "HDMI-1"] (by decide) (by decide)

/-! ### Lemmas about the placement / load balancer -/

theorem pickMin_spec (c : Int → Int) :
    ∀ (l : List Int) (mw lp : Int),
      (pickMin c mw lp l = lp ∧ ∀ t ∈ l, mw ≤ c t) ∨
      (∃ l1 l2, l = l1 ++ pickMin c mw lp l :: l2 ∧ c (pickMin c mw lp l) < mw ∧
        (∀ t ∈ l1, c (pickMin c mw lp l) < c t) ∧
        (∀ t ∈ l2, c (pickMin c mw lp l) ≤ c t)) := by
  intro l
  induction l with
  | nil => intro mw lp; left; simp [pickMin]
  | cons t ts ih =>
    intro mw lp
    by_cases h : c t < mw
    · rw [pickMin, if_pos h]
      rcases ih (c t) t with ⟨heq, hall⟩ | ⟨l1, l2, hsplit, hlt, hbef, haft⟩
      · right
        refine ⟨[], ts, by rw [heq, List.nil_append], by rw [heq]; exact h, by simp, ?_⟩
        intro u hu
        rw [heq]
        exact hall u hu
      · right
        refine ⟨t :: l1, l2, by rw [List.cons_append, ← hsplit], lt_trans hlt h, ?_, haft⟩
        intro u hu
        rcases List.mem_cons.mp hu with rfl | hu1
        · exact hlt
        · exact hbef u hu1
    · rw [pickMin, if_neg h]
      rcases ih mw lp with ⟨heq, hall⟩ | ⟨l1, l2, hsplit, hlt, hbef, haft⟩
      · left
        refine ⟨heq, ?_⟩
        intro u hu
        rcases List.mem_cons.mp hu with rfl | hu1
        · exact le_of_not_lt h
        · exact hall u hu1
      · right
        refine ⟨t :: l1, l2, by rw [List.cons_append, ← hsplit], hlt, ?_, haft⟩
        intro u hu
        rcases List.mem_cons.mp hu with rfl | hu1
        · exact lt_of_lt_of_le hlt (le_of_not_lt h)
        · exact hbef u hu1

/-- C2 counterexample: with the requested workspace 0 (which is ≤ 0) and a
table containing workspace 10, the non-silent move operation still issues a
dispatch (a visible switch to workspace 10), so it is not a complete no-op. -/
theorem move_nonpositive_dispatches_cex :
    move_workspace (fun _ => 0) 0 [⟨10, "DP-1"⟩] =
      [.log "Invalid workspace number", .dispatch (.workspace 10)] := by
  decide

/-- C2 as amended: for requested workspace ≤ 0, the switch operation and the
silent move are logged no-ops with no dispatch; the non-silent move issues no
silent-move dispatch but still dispatches a visible switch for every table
entry congruent to the request modulo 10, so it is a complete no-op only when
that entry set is empty. -/
theorem nonpositive_request_behavior (cw mc cm : Int) (counts : Int → Int) (w : Int)
    (maps : List WorkspaceMonitorMap) (hw : w ≤ 0) :
    switch_workspace cw mc cm w maps = .ok [.log "Invalid workspace number"] ∧
    move_silent_workspace counts w maps = [.log "Invalid workspace number"] ∧
    move_workspace counts w maps =
      .log "Invalid workspace number" ::
        (placementTargets w maps).map (fun ws => .dispatch (.workspace ws)) := by
  refine ⟨?_, ?_, ?_⟩
  · rw [switch_workspace, if_pos hw]
  · rw [move_silent_workspace, if_pos hw]
  · rw [move_workspace, move_silent_workspace, if_pos hw]
    rfl

/-- Witness for C2 as amended, at requested workspace 0 against a one-entry
table. -/
theorem nonpositive_request_behavior_witness :
    switch_workspace 0 1 0 0 [⟨10, "DP-1"⟩] = .ok [.log "Invalid workspace number"] ∧
    move_silent_workspace (fun _ => 0) 0 [⟨10, "DP-1"⟩] =
      [.log "Invalid workspace number"] ∧
    move_workspace (fun _ => 0) 0 [⟨10, "DP-1"⟩] =
      .log "Invalid workspace number" ::
        (placementTargets 0 [⟨10, "DP-1"⟩]).map (fun ws => .dispatch (.workspace ws)) :=
  nonpositive_request_behavior 0 1 0 (fun _ => 0) 0 [⟨10, "DP-1"⟩] (by decide)

/-- C3 counterexample: with the table listing workspace 13 before workspace 3
and equal window counts on both, the silent move selects 13 — the tie is
broken by table iteration order, not by ascending workspace number (which
would select 3). -/
theorem moveTo_tiebreak_cex :
    move_silent_workspace (fun _ => 0) 3 [⟨13, "a"⟩, ⟨3, "a"⟩] =
      [.dispatch (.moveToWorkspaceSilent 13)] ∧ (3 : Int) < 13 := by
  constructor
  · decide
  · decide

/-- C3 as amended: for a positive request with a non-empty placement group
(and counts in `i32` range, as every parsed count is), the silent move
dispatches exactly one silent-move command to a group member with minimal
live window count; ties are broken by the first occurrence in the table's
iteration order (not by ascending workspace number), except that when every
count equals `i32::MAX` the smallest member is kept; the non-silent move then
additionally dispatches a visible switch to every group member in table
order. -/
theorem moveTo_least_loaded (counts : Int → Int) (w : Int)
    (maps : List WorkspaceMonitorMap) (hw : 0 < w)
    (hne : placementTargets w maps ≠ [])
    (hbound : ∀ t ∈ placementTargets w maps, counts t ≤ 2147483647) :
    ∃ least,
      move_silent_workspace counts w maps = [.dispatch (.moveToWorkspaceSilent least)] ∧
      least ∈ placementTargets w maps ∧
      (∀ t ∈ placementTargets w maps, counts least ≤ counts t) ∧
      ((∃ t ∈ placementTargets w maps, counts t < 2147483647) →
        ∃ l1 l2, placementTargets w maps = l1 ++ least :: l2 ∧
          ∀ t ∈ l1, counts least < counts t) ∧
      move_workspace counts w maps =
        .dispatch (.moveToWorkspaceSilent least) ::
          (placementTargets w maps).map (fun ws => .dispatch (.workspace ws)) := by
  have hwne : ¬ w ≤ 0 := not_le.mpr hw
  have hempty : (placementTargets w maps).isEmpty = false := by
    rw [Bool.eq_false_iff]
    intro htrue
    exact hne (List.isEmpty_iff.mp htrue)
  have hperm := List.perm_insertionSort (fun a b : Int => a ≤ b) (placementTargets w maps)
  have hsne : List.insertionSort (fun a b : Int => a ≤ b) (placementTargets w maps) ≠ [] := by
    intro hnil
    rw [hnil] at hperm
    exact hne (List.Perm.nil_eq hperm).symm
  obtain ⟨s0, srest, hcons⟩ := List.exists_cons_of_ne_nil hsne
  have hs0mem : s0 ∈ placementTargets w maps := by
    have : s0 ∈ List.insertionSort (fun a b : Int => a ≤ b) (placementTargets w maps) := by
      rw [hcons]; exact List.mem_cons_self _ _
    exact hperm.subset this
  have hform : move_silent_workspace counts w maps =
      [.dispatch (.moveToWorkspaceSilent
        (pickMin counts 2147483647
          ((List.insertionSort (fun a b : Int => a ≤ b) (placementTargets w maps)).headD 0)
          (placementTargets w maps)))] := by
    rw [move_silent_workspace, if_neg hwne]
    simp only [hempty, Bool.false_eq_true, if_false]
  have hhead : (List.insertionSort (fun a b : Int => a ≤ b)
      (placementTargets w maps)).headD 0 = s0 := by
    rw [hcons]; rfl
  rw [hhead] at hform
  refine ⟨pickMin counts 2147483647 s0 (placementTargets w maps), hform, ?_, ?_, ?_, ?_⟩
  · rcases pickMin_spec counts (placementTargets w maps) 2147483647 s0 with
      ⟨heq, _⟩ | ⟨l1, l2, hsplit, _, _, _⟩
    · rw [heq]; exact hs0mem
    · have hmem : pickMin counts 2147483647 s0 (placementTargets w maps) ∈
          l1 ++ pickMin counts 2147483647 s0 (placementTargets w maps) :: l2 :=
        List.mem_append.mpr (Or.inr (List.mem_cons_self _ _))
      rw [← hsplit] at hmem
      exact hmem
  · rcases pickMin_spec counts (placementTargets w maps) 2147483647 s0 with
      ⟨heq, hall⟩ | ⟨l1, l2, hsplit, _, hbef, haft⟩
    · intro t ht
      rw [heq]
      calc counts s0 ≤ 2147483647 := hbound s0 hs0mem
        _ ≤ counts t := hall t ht
    · intro t ht
      rw [hsplit] at ht
      rcases List.mem_append.mp ht with h1 | h2
      · exact le_of_lt (hbef t h1)
      · rcases List.mem_cons.mp h2 with rfl | h3
        · exact le_refl _
        · exact haft t h3
  · rintro ⟨t, ht, hlt⟩
    rcases pickMin_spec counts (placementTargets w maps) 2147483647 s0 with
      ⟨_, hall⟩ | ⟨l1, l2, hsplit, _, hbef, _⟩
    · exact absurd (hall t ht) (not_le.mpr hlt)
    · exact ⟨l1, l2, hsplit, hbef⟩
  · rw [move_workspace, hform]
    rfl

/-- Witness for C3 as amended: the three-monitor scenario of the claim, with
window counts 2, 5, 1 on group members 3, 13, 23. -/
theorem moveTo_least_loaded_witness :
    ∃ least,
      move_silent_workspace
          (fun t => if t = 3 then 2 else if t = 13 then 5 else if t = 23 then 1 else 0) 3
          [⟨3, "DP-1"⟩, ⟨13, "DP-2"⟩, ⟨23, "DP-3"⟩] =
        [.dispatch (.moveToWorkspaceSilent least)] ∧
      least ∈ placementTargets 3 [⟨3, "DP-1"⟩, ⟨13, "DP-2"⟩, ⟨23, "DP-3"⟩] ∧
      move_workspace
          (fun t => if t = 3 then 2 else if t = 13 then 5 else if t = 23 then 1 else 0) 3
          [⟨3, "DP-1"⟩, ⟨13, "DP-2"⟩, ⟨23, "DP-3"⟩] =
        .dispatch (.moveToWorkspaceSilent least) ::
          (placementTargets 3 [⟨3, "DP-1"⟩, ⟨13, "DP-2"⟩, ⟨23, "DP-3"⟩]).map
            (fun ws => .dispatch (.workspace ws)) :=
  match
    moveTo_least_loaded
      (fun t => if t = 3 then 2 else if t = 13 then 5 else if t = 23 then 1 else 0) 3
      [⟨3, "DP-1"⟩, ⟨13, "DP-2"⟩, ⟨23, "DP-3"⟩] (by decide) (by decide) (by decide)
  with
  | ⟨least, h1, h2, _, _, h5⟩ => ⟨least, h1, h2, h5⟩

/-- C4 counterexample: with the table listing workspace 13 before workspace 3,
a switch to 3 (active workspace 5, outside the group) dispatches to 13 before
3 — table order, not ascending numeric order. -/
theorem switch_order_cex :
    switch_workspace 5 2 0 3 [⟨13, "a"⟩, ⟨3, "a"⟩] =
      .ok [.dispatch (.workspace 13), .dispatch (.workspace 3)] ∧ ¬ ((13 : Int) ≤ 3) :=
  ⟨rfl, by decide⟩

/-- C4 as amended: for a positive request with a non-empty placement group
not containing the live active workspace, the switch operation dispatches a
workspace-switch command for every member of the group, in the order the
entries appear in the table (ascending only when the table itself is
ascending, as the generated table is). -/
theorem switch_broadcast_table_order (cw mc cm w : Int)
    (maps : List WorkspaceMonitorMap) (hw : 0 < w)
    (hne : placementTargets w maps ≠ []) (hcw : cw ∉ placementTargets w maps) :
    switch_workspace cw mc cm w maps =
      .ok ((placementTargets w maps).map (fun ws => .dispatch (.workspace ws))) := by
  have hwne : ¬ w ≤ 0 := not_le.mpr hw
  have hempty : (placementTargets w maps).isEmpty = false := by
    rw [Bool.eq_false_iff]
    intro htrue
    exact hne (List.isEmpty_iff.mp htrue)
  have hc : (placementTargets w maps).contains cw = false := by
    rw [Bool.eq_false_iff]
    intro htrue
    exact hcw (List.elem_iff.mp htrue)
  rw [switch_workspace, if_neg hwne]
  simp only [hempty, Bool.false_eq_true, if_false, hc]

/-- Witness for C4 as amended. -/
theorem switch_broadcast_table_order_witness :
    switch_workspace 5 2 0 3 [⟨3, "DP-1"⟩, ⟨13, "HDMI-1"⟩] =
      .ok ((placementTargets 3 [⟨3, "DP-1"⟩, ⟨13, "HDMI-1"⟩]).map
        (fun ws => .dispatch (.workspace ws))) :=
  switch_broadcast_table_order 5 2 0 3 [⟨3, "DP-1"⟩, ⟨13, "HDMI-1"⟩]
    (by decide) (by decide) (by decide)

theorem parse_i32_bounds (l : List Char) (n : Int) (h : parse_i32 l = some n) :
    -2147483648 ≤ n ∧ n ≤ 2147483647 := by
  unfold parse_i32 at h
  split at h
  · rename_i rest
    rcases hd : parseDigits rest with _ | m
    · rw [hd] at h
      simp at h
    · rw [hd] at h
      simp only [Option.some_bind] at h
      split at h
      · rename_i hle
        have hm : (0 : Int) ≤ (m : Int) := Int.natCast_nonneg m
        injection h with h
        omega
      · simp at h
  · rename_i rest
    rcases hd : parseDigits rest with _ | m
    · rw [hd] at h
      simp at h
    · rw [hd] at h
      simp only [Option.some_bind] at h
      split at h
      · rename_i hle
        have hm : (0 : Int) ≤ (m : Int) := Int.natCast_nonneg m
        injection h with h
        omega
      · simp at h
  · rcases hd : parseDigits l with _ | m
    · rw [hd] at h
      simp at h
    · rw [hd] at h
      simp only [Option.some_bind] at h
      split at h
      · rename_i hle
        have hm : (0 : Int) ≤ (m : Int) := Int.natCast_nonneg m
        injection h with h
        omega
      · simp at h

theorem get_current_monitor_bounds (s : String) :
    -2147483648 ≤ get_current_monitor s ∧ get_current_monitor s ≤ 2147483647 := by
  unfold get_current_monitor
  rcases hp : parse_i32 s.toList with _ | n
  · simp
  · simpa using parse_i32_bounds s.toList n hp

theorem wrap32_eq_self (n : Int) (h1 : -2147483648 ≤ n) (h2 : n < 2147483648) :
    wrap32 n = n := by
  unfold wrap32
  show (n + 2 ^ 31) % (2 ^ 32) - 2 ^ 31 = n
  omega

/-- C5 counterexample: two reachable panics. With monitor-count response "0"
(which parses to 0, so `unwrap_or(1)` does not apply) the cyclic focus
computation is a remainder by zero; with active-monitor response
"2147483647" (`i32::MAX`) and count response "-1", the increment overflows
(panicking directly in a debug build) and `i32::MIN % -1` is a remainder
overflow, a panic in every build profile. Both contradict "never crash ...
for every possible textual response". -/
theorem switch_query_panic_cex :
    switch_workspace (get_current_workspace "3") (get_monitor_count "0")
        (get_current_monitor "0") 3 [⟨3, "DP-1"⟩] =
      .error "attempt to calculate the remainder with a divisor of zero" ∧
    switch_workspace (get_current_workspace "3") (get_monitor_count "-1")
        (get_current_monitor "2147483647") 3 [⟨3, "DP-1"⟩] =
      .error "attempt to calculate the remainder with overflow" :=
  ⟨rfl, rfl⟩

/-- C5 as amended: the switch operation never panics provided the
monitor-count query response does not parse to 0 and the active-monitor
response does not parse to `i32::MAX` (2147483647); away from those two
query outcomes every branch returns — a logged no-op or dispatches — for
every textual query response and table. Excluding `i32::MAX` rules out both
the debug-mode increment overflow and the `i32::MIN % -1` remainder
overflow, so the statement holds in every build profile. (The move
operations return effect lists unconditionally in this embedding: they
contain no panicking operation.) -/
theorem switch_no_panic_nonzero_count (s_cw s_mc s_cm : String) (w : Int)
    (maps : List WorkspaceMonitorMap) (h : get_monitor_count s_mc ≠ 0)
    (hcm : get_current_monitor s_cm ≠ 2147483647) :
    ∃ effs,
      switch_workspace (get_current_workspace s_cw) (get_monitor_count s_mc)
        (get_current_monitor s_cm) w maps = .ok effs := by
  rw [switch_workspace]
  by_cases h1 : w ≤ 0
  · rw [if_pos h1]
    exact ⟨_, rfl⟩
  rw [if_neg h1]
  by_cases h2 : (placementTargets w maps).isEmpty
  · rw [if_pos h2]
    exact ⟨_, rfl⟩
  rw [if_neg h2]
  by_cases h3 : (placementTargets w maps).contains (get_current_workspace s_cw)
  · have hb := get_current_monitor_bounds s_cm
    have hwrap : wrap32 (get_current_monitor s_cm + 1) = get_current_monitor s_cm + 1 :=
      wrap32_eq_self _ (by omega) (by omega)
    have hov : ¬ (wrap32 (get_current_monitor s_cm + 1) = -2147483648 ∧
        get_monitor_count s_mc = -1) := by
      rintro ⟨ha, -⟩
      rw [hwrap] at ha
      omega
    rw [if_pos h3, if_neg h, if_neg hov]
    exact ⟨_, rfl⟩
  · rw [if_neg h3]
    exact ⟨_, rfl⟩

/-- Witness for C5 as amended, at query responses "5", "2", "0". -/
theorem switch_no_panic_nonzero_count_witness :
    ∃ effs,
      switch_workspace (get_current_workspace "5") (get_monitor_count "2")
        (get_current_monitor "0") 3 [⟨13, "a"⟩] = .ok effs :=
  switch_no_panic_nonzero_count "5" "2" "0" 3 [⟨13, "a"⟩] (by decide) (by decide)

/-! ### Lemmas about the monitor registry -/

/-- C6: a failed refresh (empty or unparsable query output) leaves the
registry exactly as it was — the clear-and-repopulate happens only when the
response parses successfully. -/
theorem refresh_failure_preserves_registry :
    (∀ (cfg : MonitorConfig) (resp : HyprResp) (e : String),
      (update_from_hyprland cfg resp).2 = .error e →
        (update_from_hyprland cfg resp).1 = cfg) ∧
    (∀ (cfg : MonitorConfig) (resp : HyprResp),
      (update_from_hyprland cfg resp).2 = .ok () → ∃ ms, resp = .parsed ms) := by
  refine ⟨?_, ?_⟩
  · intro cfg resp e h
    cases resp with
    | empty => rfl
    | unparsable => rfl
    | parsed ms => simp [update_from_hyprland] at h
  · intro cfg resp h
    cases resp with
    | empty => simp [update_from_hyprland] at h
    | unparsable => simp [update_from_hyprland] at h
    | parsed ms => exact ⟨ms, rfl⟩

/-- Witness for C6 at a one-monitor registry and an empty query response. -/
theorem refresh_failure_preserves_registry_witness :
    (update_from_hyprland ⟨[("0", ⟨"DP-1", 0, 1080, 1920, ⟨0⟩⟩)]⟩ HyprResp.empty).1 =
      ⟨[("0", ⟨"DP-1", 0, 1080, 1920, ⟨0⟩⟩)]⟩ :=
  refresh_failure_preserves_registry.1 ⟨[("0", ⟨"DP-1", 0, 1080, 1920, ⟨0⟩⟩)]⟩
    HyprResp.empty "Failed to get monitor information from hyprctl" rfl

theorem parseMonitor_toJson (m : Monitor) : parseMonitor (Monitor.toJson m) = .ok m := rfl

theorem foldlM_parse_serialized (l : List (String × Monitor)) :
    ∀ acc : List (String × Monitor),
      (l.map (fun kv => (kv.1, Monitor.toJson kv.2))).foldlM
          (fun acc kv => do
            let m ← parseMonitor kv.2
            pure (insertEntry acc kv.1 m))
          acc =
        .ok (l.foldl (fun acc kv => insertEntry acc kv.1 kv.2) acc) := by
  induction l with
  | nil => intro acc; rfl
  | cons kv rest ih =>
    intro acc
    rw [List.map_cons, List.foldlM_cons, List.foldl_cons]
    simp only [parseMonitor_toJson]
    exact ih (insertEntry acc kv.1 kv.2)

theorem insertEntry_not_mem (k : String) (v : Monitor) :
    ∀ acc : List (String × Monitor), k ∉ acc.map Prod.fst →
      insertEntry acc k v = acc ++ [(k, v)] := by
  intro acc
  induction acc with
  | nil => intro _; rfl
  | cons kv rest ih =>
    intro h
    rw [List.map_cons, List.mem_cons] at h
    push_neg at h
    rw [insertEntry, if_neg (fun he => h.1 he.symm), ih h.2, List.cons_append]

theorem foldl_insertEntry_nodup (l : List (String × Monitor)) :
    ∀ acc : List (String × Monitor), ((acc ++ l).map Prod.fst).Nodup →
      l.foldl (fun acc kv => insertEntry acc kv.1 kv.2) acc = acc ++ l := by
  induction l with
  | nil => intro acc _; simp
  | cons kv rest ih =>
    intro acc h
    rw [List.foldl_cons]
    have hk : kv.1 ∉ acc.map Prod.fst := by
      intro hmem
      rw [List.map_append, List.nodup_append] at h
      exact h.2.2 hmem (by simp)
    rw [insertEntry_not_mem kv.1 kv.2 acc hk]
    have hrest := ih (acc ++ [(kv.1, kv.2)]) (by simpa using h)
    rw [hrest]
    simp

/-- C7: saving a Monitor Registry and loading it back yields the registry
unchanged — the same Monitor entries under the same keys (the hypothesis that
keys are distinct holds for every real registry, whose map is keyed by
monitor id). -/
theorem save_load_roundtrip (cfg : MonitorConfig)
    (h : (cfg.monitors.map Prod.fst).Nodup) :
    MonitorConfig.load (MonitorConfig.save cfg) = .ok cfg := by
  rw [MonitorConfig.save, MonitorConfig.load]
  show (do
      let m ← parseMonitorsMap (cfg.monitors.map (fun kv => (kv.1, Monitor.toJson kv.2)))
      Except.ok (⟨m⟩ : MonitorConfig) : Except String MonitorConfig) = .ok cfg
  rw [parseMonitorsMap, foldlM_parse_serialized cfg.monitors []]
  rw [foldl_insertEntry_nodup cfg.monitors [] (by simpa using h)]
  rfl

/-- Witness for C7 at a concrete two-monitor registry. -/
theorem save_load_roundtrip_witness :
    MonitorConfig.load
        (MonitorConfig.save
          ⟨[("0", ⟨"DP-1", 0, 1080, 1920, ⟨60⟩⟩), ("1", ⟨"HDMI-1", 1, 1440, 2560, ⟨144⟩⟩)]⟩) =
      .ok ⟨[("0", ⟨"DP-1", 0, 1080, 1920, ⟨60⟩⟩), ("1", ⟨"HDMI-1", 1, 1440, 2560, ⟨144⟩⟩)]⟩ :=
  save_load_roundtrip
    ⟨[("0", ⟨"DP-1", 0, 1080, 1920, ⟨60⟩⟩), ("1", ⟨"HDMI-1", 1, 1440, 2560, ⟨144⟩⟩)]⟩
    (by decide)

/-! ### Lemmas about the event listener -/

theorem exec_check_eq (md : Nat) :
    (u32not md &&& 0o100 != 0) = !(md.testBit 6) := by
  have h64 : (0o100 : Nat) = 2 ^ 6 := by norm_num
  rw [h64, u32not, Nat.and_two_pow]
  have hx : ((md % 2 ^ 32) ^^^ (2 ^ 32 - 1)).testBit 6 = !(md.testBit 6) := by
    rw [Nat.testBit_xor, Nat.testBit_two_pow_sub_one, Nat.testBit_mod_two_pow]
    norm_num
  rw [hx]
  cases h : md.testBit 6 <;> simp

theorem processLine_parts (fs : FileSys) (mode : ListenMode) (line : String)
    (p0 p1 : List Char) (r : List (List Char))
    (hsplit : splitGG (trimChars line.toList) = p0 :: p1 :: r) :
    processLine fs mode line = handleEvent fs mode p0 p1 := by
  unfold processLine
  rw [hsplit]

theorem handleEvent_added_script (fs : FileSys) (sa : String) (sd : Option String)
    (p1 : List Char) :
    handleEvent fs (.script sa sd) "monitoradded".toList p1 =
      spawnChecked fs sa (String.mk p1) := rfl

theorem handleEvent_removed_script (fs : FileSys) (sa sdv : String) (p1 : List Char) :
    handleEvent fs (.script sa (some sdv)) "monitorremoved".toList p1 =
      spawnChecked fs sdv (String.mk p1) := rfl

theorem handleEvent_removed_none (fs : FileSys) (sa : String) (p1 : List Char) :
    handleEvent fs (.script sa none) "monitorremoved".toList p1 = [] := rfl

theorem spawnChecked_none (fs : FileSys) (script arg : String) (h : fs script = none) :
    spawnChecked fs script arg =
      [.logError ("Error: '" ++ script ++ "' file not found.")] := by
  unfold spawnChecked
  rw [h]

theorem spawnChecked_some (fs : FileSys) (script arg : String) (md : Nat)
    (h : fs script = some md) :
    spawnChecked fs script arg =
      if md.testBit 6 then [.spawn script arg]
      else [.logError ("Error: '" ++ script ++ "' file is not executable.")] := by
  unfold spawnChecked
  rw [h]
  show (if (u32not md &&& 0o100 != 0) = true then _ else _) = _
  rw [exec_check_eq]
  cases hb : md.testBit 6 <;> rfl

/-- C8: in callback mode, the line "monitoradded>>DP-2" invokes the callback
exactly once with ("DP-2", true); a line with fewer than two fields after the
">>" split produces no effect and leaves the listener (whose only
inter-iteration state is the remaining stream) unchanged; any event name
other than `monitoradded` / `monitorremoved` is likewise ignored. -/
theorem callback_event_handling :
    (∀ fs : FileSys,
      processLine fs .callback "monitoradded>>DP-2" = [.callbackCall "DP-2" true]) ∧
    (∀ (fs : FileSys) (mode : ListenMode) (line : String) (rest : List String),
      (splitGG (trimChars line.toList)).length < 2 →
        processLine fs mode line = [] ∧
        listenRun fs mode (line :: rest) = listenRun fs mode rest) ∧
    (∀ (fs : FileSys) (mode : ListenMode) (line : String) (p0 p1 : List Char)
        (r : List (List Char)),
      splitGG (trimChars line.toList) = p0 :: p1 :: r →
        p0 ≠ "monitoradded".toList → p0 ≠ "monitorremoved".toList →
        processLine fs mode line = []) := by
  refine ⟨?_, ?_, ?_⟩
  · intro fs
    rfl
  · intro fs mode line rest hlen
    have hp : processLine fs mode line = [] := by
      rcases hsplit : splitGG (trimChars line.toList) with _ | ⟨p0, _ | ⟨p1, r⟩⟩
      · unfold processLine
        rw [hsplit]
      · unfold processLine
        rw [hsplit]
      · rw [hsplit] at hlen
        simp only [List.length_cons] at hlen
        omega
    refine ⟨hp, ?_⟩
    show processLine fs mode line ++ listenRun fs mode rest = listenRun fs mode rest
    rw [hp, List.nil_append]
  · intro fs mode line p0 p1 r hsplit h1 h2
    rw [processLine_parts fs mode line p0 p1 r hsplit]
    unfold handleEvent
    rw [if_neg h1, if_neg h2]

/-- Witness for C8 at a malformed line and an unrecognized event name. -/
theorem callback_event_handling_witness :
    processLine (fun _ => none) .callback "monitoradded>>DP-2" =
      [.callbackCall "DP-2" true] ∧
    processLine (fun _ => none) .callback "garbage" = [] ∧
    processLine (fun _ => none) .callback "workspace>>3" = [] :=
  ⟨callback_event_handling.1 (fun _ => none),
    (callback_event_handling.2.1 (fun _ => none) .callback "garbage" [] (by decide)).1,
    callback_event_handling.2.2 (fun _ => none) .callback "workspace>>3"
      "workspace".toList "3".toList [] (by decide) (by decide) (by decide)⟩

/-- C9: in script mode, a `monitoradded` event (resp. a `monitorremoved`
event with a detached script configured) spawns the script with the monitor
identity as sole argument exactly when the script file exists and its
owner-execute permission bit (0o100, i.e. bit 6) is set; when the file is
missing or the bit is clear, the listener logs an error and skips without
spawning. -/
theorem script_exec_guard :
    (∀ (fs : FileSys) (sa : String) (sd : Option String) (line : String)
        (p1 : List Char) (r : List (List Char)),
      splitGG (trimChars line.toList) = "monitoradded".toList :: p1 :: r →
        (fs sa = none →
          processLine fs (.script sa sd) line =
            [.logError ("Error: '" ++ sa ++ "' file not found.")]) ∧
        (∀ md : Nat, fs sa = some md → md.testBit 6 = false →
          processLine fs (.script sa sd) line =
            [.logError ("Error: '" ++ sa ++ "' file is not executable.")]) ∧
        (∀ md : Nat, fs sa = some md → md.testBit 6 = true →
          processLine fs (.script sa sd) line = [.spawn sa (String.mk p1)])) ∧
    (∀ (fs : FileSys) (sa sdv : String) (line : String)
        (p1 : List Char) (r : List (List Char)),
      splitGG (trimChars line.toList) = "monitorremoved".toList :: p1 :: r →
        (fs sdv = none →
          processLine fs (.script sa (some sdv)) line =
            [.logError ("Error: '" ++ sdv ++ "' file not found.")]) ∧
        (∀ md : Nat, fs sdv = some md → md.testBit 6 = false →
          processLine fs (.script sa (some sdv)) line =
            [.logError ("Error: '" ++ sdv ++ "' file is not executable.")]) ∧
        (∀ md : Nat, fs sdv = some md → md.testBit 6 = true →
          processLine fs (.script sa (some sdv)) line = [.spawn sdv (String.mk p1)])) := by
  constructor
  · intro fs sa sd line p1 r hsplit
    rw [processLine_parts fs (.script sa sd) line _ p1 r hsplit, handleEvent_added_script]
    refine ⟨?_, ?_, ?_⟩
    · intro hnone
      rw [spawnChecked_none fs sa (String.mk p1) hnone]
    · intro md hsome hbit
      rw [spawnChecked_some fs sa (String.mk p1) md hsome, hbit]
      rfl
    · intro md hsome hbit
      rw [spawnChecked_some fs sa (String.mk p1) md hsome, hbit]
      rfl
  · intro fs sa sdv line p1 r hsplit
    rw [processLine_parts fs (.script sa (some sdv)) line _ p1 r hsplit,
      handleEvent_removed_script]
    refine ⟨?_, ?_, ?_⟩
    · intro hnone
      rw [spawnChecked_none fs sdv (String.mk p1) hnone]
    · intro md hsome hbit
      rw [spawnChecked_some fs sdv (String.mk p1) md hsome, hbit]
      rfl
    · intro md hsome hbit
      rw [spawnChecked_some fs sdv (String.mk p1) md hsome, hbit]
      rfl

/-- Witness for C9: a spawn with mode 0o755, a missing file, and a
non-executable file with mode 0o644. -/
theorem script_exec_guard_witness :
    processLine (fun _ => some 0o755) (.script "/s" none) "monitoradded>>DP-2" =
      [.spawn "/s" "DP-2"] ∧
    processLine (fun _ => none) (.script "/s" none) "monitoradded>>DP-2" =
      [.logError ("Error: '" ++ "/s" ++ "' file not found.")] ∧
    processLine (fun _ => some 0o644) (.script "/x" (some "/d")) "monitorremoved>>DP-1" =
      [.logError ("Error: '" ++ "/d" ++ "' file is not executable.")] :=
  ⟨(script_exec_guard.1 (fun _ => some 0o755) "/s" none "monitoradded>>DP-2"
      "DP-2".toList [] (by decide)).2.2 0o755 rfl (by decide),
    (script_exec_guard.1 (fun _ => none) "/s" none "monitoradded>>DP-2"
      "DP-2".toList [] (by decide)).1 rfl,
    (script_exec_guard.2 (fun _ => some 0o644) "/x" "/d" "monitorremoved>>DP-1"
      "DP-1".toList [] (by decide)).2.1 0o644 rfl (by decide)⟩

/-- C10: in script mode with no detached script configured, a
`monitorremoved` event is silently dropped — no spawn, no log, no effect. -/
theorem removed_without_detached_ignored (fs : FileSys) (sa : String) (line : String)
    (p1 : List Char) (r : List (List Char))
    (hsplit : splitGG (trimChars line.toList) = "monitorremoved".toList :: p1 :: r) :
    processLine fs (.script sa none) line = [] := by
  rw [processLine_parts fs (.script sa none) line _ p1 r hsplit,
    handleEvent_removed_none]

/-- Witness for C10. -/
theorem removed_without_detached_ignored_witness :
    processLine (fun _ => none) (.script "/s" none) "monitorremoved>>DP-1" = [] :=
  removed_without_detached_ignored (fun _ => none) "/s" "monitorremoved>>DP-1"
    "DP-1".toList [] (by decide)

end HyprWS
